import Mathlib

/-!
# ks-killer: verification of the kill-switch discovery and replacement core

Shallow embedding of the repository's core module (`findKSDeclaration` and
`replaceFunCallWithFalse`) over a model of the ts-morph syntax-tree interface.

Modelling conventions:
* JavaScript `Date` values are milliseconds since the epoch, modelled as `Int`.
  The host's `Date.parse` (an external, host-dependent facility; an invalid
  date is `NaN`) is a parameter `parseDate : String → Option Int`, where
  `none` stands for `NaN` / an invalid date. `new Date(string)` compared with
  `<` follows the same parse; a comparison against an invalid date is false.
* `extractDateFromComments` lives in `src/utils/getInfoFromText`, which is not
  among the sources at hand; discovery takes it as an explicit parameter
  (see `specExtractDateFromComments` below for a spec-modelled instance).
* TypeScript strings that can be `undefined` become `Option String`;
  JavaScript truthiness on them (`undefined` and `""` are falsy) is `isTruthy`.
* ts-morph node identity (as used by `Set`) is modelled by an `id : Nat` field
  on replacement-side nodes; `getSourceFileOrThrow` path resolution is
  modelled as exact path equality.
* Argument and statement lists use the dedicated list types `TsArgs` and
  `TsStmts` (isomorphic to `List`) so that decidable equality is derivable.
-/

/-- The subset of `ts.SyntaxKind` the core module mentions or that appears as
the kind of a node in the modelled trees. -/
inductive SynKind where
  | identifier
  | callExpression
  | propertyAccessExpression
  | prefixUnaryExpression
  | exclamationToken
  | minusToken
  | returnStatement
  | variableDeclaration
  | expressionStatement
  | ifStatement
  | importSpecifier
  | otherKind
  deriving DecidableEq, Repr

mutual

/-- Expressions, with just enough structure for the operations the core
performs: `getExpressionIfKind`, `getName` of a property access,
`getArguments`, `getText`. `litExpr` carries the literal's source text,
quotes included, exactly as `getText()` returns it. -/
inductive TsExpr where
  | callExpr (callee : TsExpr) (args : TsArgs)
  | propAccess (obj : TsExpr) (name : String)
  | identExpr (name : String)
  | litExpr (text : String)
  deriving DecidableEq, Repr

/-- The argument list of a call expression. -/
inductive TsArgs where
  | nil
  | cons (head : TsExpr) (tail : TsArgs)
  deriving DecidableEq, Repr

end

mutual

/-- Statements of a function body; `block` covers every construct that can
nest further statements, so `getFirstDescendantByKind(ReturnStatement)`
is a depth-first search through it. -/
inductive TsStmt where
  | retStmt (e : Option TsExpr)
  | block (stmts : TsStmts)
  | otherStmt
  deriving DecidableEq, Repr

/-- A statement list. -/
inductive TsStmts where
  | nil
  | cons (head : TsStmt) (tail : TsStmts)
  deriving DecidableEq, Repr

end

mutual

/-- Model of `node.getText()` — the source text of an expression (rendered from the
tree; literals carry their exact original text). -/
def TsExpr.getText : TsExpr → String
  | .callExpr callee args => callee.getText ++ "(" ++ TsArgs.getTextJoined args ++ ")"
  | .propAccess obj name => obj.getText ++ "." ++ name
  | .identExpr n => n
  | .litExpr t => t

/-- Comma-separated argument texts, as they appear between the parentheses. -/
def TsArgs.getTextJoined : TsArgs → String
  | .nil => ""
  | .cons e .nil => e.getText
  | .cons e rest => e.getText ++ ", " ++ TsArgs.getTextJoined rest

end

/-- Model of `callExp.getArguments().map(a => a.getText())`: the texts of the
arguments, in order. -/
def TsArgs.textList : TsArgs → List String
  | .nil => []
  | .cons e rest => e.getText :: rest.textList

/-- A `FunctionDeclaration` as the discovery pass consumes it: its name, its
body statements, and the raw text of comments attached to it (the input to
`extractDateFromComments`). -/
structure FunctionDeclaration where
  name : String
  body : TsStmts
  commentText : String
  deriving DecidableEq, Repr

/-- A `SourceFile`: its path, the names of its import specifiers
(`getDescendantsOfKind(SyntaxKind.ImportSpecifier).map(getName)`), its full
text (`getText()`), and its child function declarations
(`getChildrenOfKind(SyntaxKind.FunctionDeclaration)`). -/
structure SourceFile where
  path : String
  importNames : List String
  text : String
  functionDecls : List FunctionDeclaration
  deriving DecidableEq, Repr

/-- A ts-morph `Project`: the loaded source files. -/
structure Project where
  sourceFiles : List SourceFile
  deriving DecidableEq, Repr

/-- Record `ICoreOptions` from the source; optional fields are `Option`. -/
structure ICoreOptions where
  targetId : Option String := none
  ksFilePath : Option String := none
  thresholdDate : Option Int := none
  deriving DecidableEq, Repr

/-- Record `IFindKSResult` from the source. -/
structure IFindKSResult where
  ksDecls : List FunctionDeclaration
  guids : List String
  deriving DecidableEq, Repr

/-- Constant `KS_ACTIVATED_METHOD = isActivated` from line 9. -/
def KS_ACTIVATED_METHOD : String := "isActivated"

/-- Line 23, `const defaultDate = new Date(Date.now() - 1000 * 60 * 60 * 24 * 180)`:
graduate kill switches older than 180 days by default. `now` is the module
load time in milliseconds. -/
def defaultDate (now : Int) : Int := now - 1000 * 60 * 60 * 24 * 180

/-- JavaScript truthiness of a possibly-undefined string: `undefined` and the
empty string are falsy. -/
def isTruthy : Option String → Bool
  | some s => s ≠ ""
  | none => false

/-- Model of `String.prototype.substring(start, end)`: negative indices clamp to 0,
indices above the length clamp to the length, and the two are swapped when
start exceeds end. -/
def jsSubstring (s : String) (start stop : Int) : String :=
  let len : Int := s.length
  let a : Nat := (max 0 (min start len)).toNat
  let b : Nat := (max 0 (min stop len)).toNat
  let lo : Nat := min a b
  let hi : Nat := max a b
  String.mk ((s.data.drop lo).take (hi - lo))

/-- Hexadecimal digit, either case (the regex carries the `/i` flag). -/
def isHexDigitCI (c : Char) : Bool :=
  c.isDigit || ('a' ≤ c && c ≤ 'f') || ('A' ≤ c && c ≤ 'F')

/-- Function `validate` from the `uuid` npm package: the string must match
`/^(?:[0-9a-f]\x7b8\x7d-[0-9a-f]\x7b4\x7d-[1-5][0-9a-f]\x7b3\x7d-[89ab][0-9a-f]\x7b3\x7d-[0-9a-f]\x7b12\x7d|00000000-0000-0000-0000-000000000000)$/i`:
either the nil UUID, or 36 characters with dashes at positions 8, 13, 18, 23,
a version digit 1–5 at position 14, a variant digit 8/9/a/b at position 19,
and hex digits everywhere else, case-insensitively (the `/i` flag is unfolded
into the character classes). -/
def uuidValidate (s : String) : Bool :=
  s == "00000000-0000-0000-0000-000000000000" ||
  (let l := s.data
   l.length == 36 &&
   (List.range 36).all fun i =>
     match l.get? i with
     | none => false
     | some c =>
       if [8, 13, 18, 23].contains i then c == '-'
       else if i == 14 then ['1', '2', '3', '4', '5'].contains c
       else if i == 19 then ['8', '9', 'a', 'b', 'A', 'B'].contains c
       else isHexDigitCI c)

/-- Substring containment, i.e. `String.prototype.includes` /
a literal-only regex `test`. -/
def strIncludes (s pat : String) : Bool :=
  (s.data.tails).any fun t => pat.data.isPrefixOf t

mutual

/-- Model of `funDecl.getFirstDescendantByKind(SyntaxKind.ReturnStatement)` on one
statement: the first return statement in depth-first order, reported as its
optional returned expression. `none` = no return statement found. -/
def firstReturnStmt : TsStmt → Option (Option TsExpr)
  | .retStmt e => some e
  | .block ss => firstReturnStmts ss
  | .otherStmt => none

/-- Search of `getFirstDescendantByKind(SyntaxKind.ReturnStatement)` over a statement
list, in order. -/
def firstReturnStmts : TsStmts → Option (Option TsExpr)
  | .nil => none
  | .cons s rest =>
    match firstReturnStmt s with
    | some r => some r
    | none => firstReturnStmts rest

end

/-- The chain `returnStatement?.getExpressionIfKind(SyntaxKind.CallExpression)`
after `getFirstDescendantByKind(SyntaxKind.ReturnStatement)`: the expression of
the first return statement, provided it exists and is a call expression. -/
def returnExprIfCall (funDecl : FunctionDeclaration) : Option TsExpr :=
  match firstReturnStmts funDecl.body with
  | some (some (TsExpr.callExpr callee args)) => some (TsExpr.callExpr callee args)
  | _ => none

/-- Model of `callExp?.getExpressionIfKind(SyntaxKind.PropertyAccessExpression)`
followed by `getName()`: the accessed member name of the callee, when the
callee is a property access. -/
def calleeMemberName : TsExpr → Option String
  | .callExpr (.propAccess _ name) _ => some name
  | _ => none

/-- Model of the `callExp.getArguments()[i].getText()` source: the list of argument
texts of a call expression. -/
def callArgTexts : TsExpr → List String
  | .callExpr _ args => args.textList
  | _ => []

/-- Line 71, `firstArgument?.substring(1, firstArgument.length - 1)`: the extracted
kill-switch identifier of a declaration (first argument text with its first
and last character stripped), when the structure provides a first argument. -/
def extractedGuid (funDecl : FunctionDeclaration) : Option String :=
  match returnExprIfCall funDecl with
  | some callExp =>
    ((callArgTexts callExp).get? 0).map fun t => jsSubstring t 1 ((t.length : Int) - 1)
  | none => none

/-- Lines 57–94 of the core, for one function declaration: the structural
check, identifier extraction, and the mode-dependent eligibility decision.
Takes the declaration's first-return call expression (if any) and the result
of `extractDateFromComments` on the declaration; returns the guid pushed onto
`result`, or `none` when the declaration is skipped. -/
def selectGuid (parseDate : String → Option Int)
    (targetId : Option String) (thresholdDate : Int)
    (callExpQ : Option TsExpr) (commentDate : Option String) : Option String :=
  match callExpQ with
  | none => none
  | some callExp =>
    -- wrong structure, skip
    if calleeMemberName callExp ≠ some KS_ACTIVATED_METHOD then none
    else
      let firstArgument := (callArgTexts callExp).get? 0
      let guid := firstArgument.map fun t => jsSubstring t 1 ((t.length : Int) - 1)
      -- if targetId is provided, it should be matched with the ks id
      if isTruthy targetId then
        match guid, targetId with
        | some g, some tid => if g == tid then some g else none
        | _, _ => none
      else
        match guid with
        | some g =>
          if g ≠ "" && uuidValidate g then
            -- we want to get a valid date, either from the second argument
            -- or comments
            let secondArg := (callArgTexts callExp).get? 1
            let dateString : Option String :=
              match secondArg with
              | some sa =>
                if sa ≠ "" && (parseDate sa).isSome then some sa
                else commentDate
              | none => commentDate
            match dateString with
            | some ds =>
              if ds ≠ "" then
                match parseDate ds with
                | some parsedDate =>
                  if parsedDate < thresholdDate then some g else none
                | none => none
              else none
            | none => none
          else none
        | none => none

/-- The loop body at lines 59–95 for one declaration: the `(funDecl, guid)`
pair pushed onto `result.ksDecls`/`result.guids`, or `none` when skipped. -/
def selectDecl (parseDate : String → Option Int)
    (extractDateFromComments : FunctionDeclaration → Option String)
    (targetId : Option String) (thresholdDate : Int)
    (funDecl : FunctionDeclaration) : Option (FunctionDeclaration × String) :=
  (selectGuid parseDate targetId thresholdDate (returnExprIfCall funDecl)
    (extractDateFromComments funDecl)).map fun g => (funDecl, g)

/-- The structural guard of lines 62–68: the first return-statement
descendant exists, its expression is a call, and the callee is a property
access named `isActivated`. -/
def structuralMatch (funDecl : FunctionDeclaration) : Bool :=
  match returnExprIfCall funDecl with
  | some callExp => calleeMemberName callExp == some KS_ACTIVATED_METHOD
  | none => false

/-- ASCII lower-casing of one character (the `/i` flag of `/killswitch/i`
is over an all-ASCII pattern, so ASCII folding captures it). -/
def asciiLowerChar (c : Char) : Char :=
  if c.isUpper then Char.ofNat (c.toNat + 32) else c

/-- ASCII lower-casing of a string. -/
def asciiLower (s : String) : String := String.mk (s.data.map asciiLowerChar)

/-- Scan-mode file prefilter (lines 50–54): keep files that import a name
matching `/killswitch/i` and whose text contains `.isActivated`. -/
def fileKeptInScan (f : SourceFile) : Bool :=
  (f.importNames.any fun name => strIncludes (asciiLower name) "killswitch") &&
  strIncludes f.text ("." ++ KS_ACTIVATED_METHOD)

/-- Lines 41–55: the files searched, together with the diagnostics emitted.
A truthy `ksFilePath` is looked up (`getSourceFileOrThrow`, modelled as exact
path equality); failure is caught, logged via `console.error`, and leaves the
file list empty. Otherwise the whole project is scanned with the prefilter. -/
def consideredFiles (project : Project) (options : ICoreOptions) :
    List SourceFile × List String :=
  if isTruthy options.ksFilePath then
    let p := options.ksFilePath.getD ""
    match project.sourceFiles.find? (fun f => f.path == p) with
    | some f => ([f], [])
    | none => ([], ["Invalid KS file path: " ++ p])
  else
    (project.sourceFiles.filter fileKeptInScan, [])

/-- Function `findKSDeclaration` (lines 31–99): scan the project for kill-switch
declarations. Returns the result record paired with the `console.error`
diagnostics produced along the way. `parseDate` is the host's `Date.parse`;
`extractDateFromComments` is the comment-scanning helper from `src/utils`;
`now` is the clock reading behind `defaultDate`. -/
def findKSDeclaration (parseDate : String → Option Int)
    (extractDateFromComments : FunctionDeclaration → Option String)
    (now : Int) (project : Project) (options : ICoreOptions) :
    IFindKSResult × List String :=
  let thresholdDate := options.thresholdDate.getD (defaultDate now)
  let ksFiles := (consideredFiles project options).1
  let selected := ksFiles.flatMap fun ksFile =>
    ksFile.functionDecls.filterMap
      (selectDecl parseDate extractDateFromComments options.targetId thresholdDate)
  ({ ksDecls := selected.map Prod.fst, guids := selected.map Prod.snd },
   (consideredFiles project options).2)

/-- A syntax-tree node as the replacement engine sees it: an identity (ts-morph
nodes are compared by object identity in a `Set`), its kind, its source text,
and — for prefix unary expressions — the operator token returned by
`getOperatorToken()`. -/
structure TNode where
  id : Nat
  kind : SynKind
  text : String
  opToken : Option SynKind := none
  deriving DecidableEq, Repr

/-- One resolved reference to the declaration, as produced by
`ksDecl.findReferences()[i].getReferences()[j]`: the reference node itself, its
ancestor chain up to three levels (`getParent`, the parent's parent, and the
parent of that), the path of the file the reference occurs in
(`refNode.getSourceFile()`), and whether the reference node is the invoked
callee of its parent (an AST fact the engine never inspects). -/
structure Reference where
  node : TNode
  parent : Option TNode
  grandparent : Option TNode
  greatgrandparent : Option TNode
  filePath : String
  isCalleeOfParent : Bool
  deriving DecidableEq, Repr

/-- Result of a replacement pass: `workList` is the `Set` of parents of
replaced nodes in insertion order, `refFiles` the `Set` of touched file paths,
and `edits` the in-order record of every `replaceWithText` mutation performed
(node replaced, new text). -/
structure ReplaceState where
  workList : List TNode
  refFiles : List String
  edits : List (TNode × String)
  deriving DecidableEq, Repr

/-- Model of `Set.prototype.add`: append unless already present. -/
def addUnique {α : Type} [DecidableEq α] (l : List α) (a : α) : List α :=
  if a ∈ l then l else l ++ [a]

/-- Check `refNode.getParent()?.getKind() === SyntaxKind.CallExpression` —
the guard at lines 117–121: a reference is processed only when its immediate
parent is a call expression. -/
def parentIsCall (r : Reference) : Bool :=
  match r.parent with
  | some p => p.kind == SynKind.callExpression
  | none => false

/-- Model of `parent.getParentIfKind(SyntaxKind.PrefixUnaryExpression)` — line 124. -/
def negationOf (r : Reference) : Option TNode :=
  match r.grandparent with
  | some g => if g.kind == SynKind.prefixUnaryExpression then some g else none
  | none => none

/-- Whether line 126 takes the `true` branch: the call's parent is a prefix
unary expression whose operator token is `!`. -/
def isNegatedCall (r : Reference) : Bool :=
  match negationOf r with
  | some g => g.opToken == some SynKind.exclamationToken
  | none => false

/-- Record one `replaceWithText` (line 127 or 129) and, when the replaced
node's parent exists, lines 131–134: add it to the work list and the file to
the touched set. -/
def recordReplacement (s : ReplaceState) (edit : TNode × String)
    (newParent : Option TNode) (filePath : String) : ReplaceState :=
  let s1 : ReplaceState := { s with edits := s.edits ++ [edit] }
  match newParent with
  | some np =>
    { s1 with
      workList := addUnique s1.workList np
      refFiles := addUnique s1.refFiles filePath }
  | none => s1

/-- The body of the reference loop (lines 115–135) for a single reference:
skip non-invocations; replace a negated invocation's negation node with
`true` (the new node's parent is the negation's old parent), otherwise replace
the invocation with `false` (the new node's parent is the invocation's old
parent). -/
def replaceStep (s : ReplaceState) (r : Reference) : ReplaceState :=
  match r.parent with
  | none => s
  | some parent =>
    -- not a function call(e.g. declaration), skip
    if parent.kind ≠ SynKind.callExpression then s
    else
      -- if it's negated, replace the whole thing with true
      match negationOf r with
      | some negation =>
        if negation.opToken == some SynKind.exclamationToken then
          recordReplacement s (negation, "true") r.greatgrandparent r.filePath
        else
          recordReplacement s (parent, "false") r.grandparent r.filePath
      | none =>
        recordReplacement s (parent, "false") r.grandparent r.filePath

/-- Function `replaceFunCallWithFalse` (lines 106–138): process every reference of the
declaration, in order. The declaration's references — the flattened in-order
content of `ksDecl.findReferences()`, which the external tree provider
computes by semantic symbol resolution — are the input. -/
def replaceFunCallWithFalse (refs : List Reference) : ReplaceState :=
  refs.foldl replaceStep { workList := [], refFiles := [], edits := [] }

/-- Splitting a string at space characters (the token boundaries the
spec-modelled comment scanner uses). -/
def splitOnSpaceAux : List Char → List Char → List String
  | [], acc => [String.mk acc.reverse]
  | c :: rest, acc =>
    if c = ' ' then String.mk acc.reverse :: splitOnSpaceAux rest []
    else splitOnSpaceAux rest (c :: acc)

/-- The whitespace-token list of a string. -/
def splitOnSpace (s : String) : List String := splitOnSpaceAux s.data []

/-- Modelled from the spec: `extractDateFromComments` (exported by
`src/utils` from `./getInfoFromText`, a file not among the sources at hand).
The spec describes it as: "scan attached leading/trailing comment text for the
first substring that parses as a valid calendar date under host date-parsing
rules; returns none if no such substring exists." Modelled as the first
whitespace-separated token of the declaration's comment text that the host
date parser accepts. Theorems below stay parametric in the extractor; this
instance serves the concrete witnesses. -/
def specExtractDateFromComments (parseDate : String → Option Int)
    (funDecl : FunctionDeclaration) : Option String :=
  (splitOnSpace funDecl.commentText).find? fun tok => (parseDate tok).isSome

/-- The date string the scan mode resolves for a declaration (lines 83–85):
the second call argument's text when it is truthy and parses as a date,
otherwise whatever `extractDateFromComments` yields. -/
def resolvedDateString (parseDate : String → Option Int)
    (extractDateFromComments : FunctionDeclaration → Option String)
    (funDecl : FunctionDeclaration) : Option String :=
  match returnExprIfCall funDecl with
  | some callExp =>
    match (callArgTexts callExp).get? 1 with
    | some sa =>
      if sa ≠ "" && (parseDate sa).isSome then some sa
      else extractDateFromComments funDecl
    | none => extractDateFromComments funDecl
  | none => extractDateFromComments funDecl

/-- The graduation date a declaration resolves to, if any (lines 87–88): the
resolved date string must be truthy and must parse to a valid date. -/
def resolvedDate (parseDate : String → Option Int)
    (extractDateFromComments : FunctionDeclaration → Option String)
    (funDecl : FunctionDeclaration) : Option Int :=
  match resolvedDateString parseDate extractDateFromComments funDecl with
  | some ds => if ds ≠ "" then parseDate ds else none
  | none => none

/-! ## Concrete example data

Fixed inputs used by the closed counterexamples and by the witnesses of the
hypothesis-carrying theorems. -/

/-- A date parser instance for concrete runs: knows the two literals used in
the end-to-end example (the quoted 2023-01-01 — quotes included, as
`getText()` yields them — and the bare 2024-01-01), in epoch milliseconds. -/
def pdExample : String → Option Int := fun s =>
  if s == "\"2023-01-01\"" then some 1672531200000
  else if s == "2024-01-01" then some 1704067200000
  else none

/-- A comment extractor instance that finds nothing. -/
def noCommentDate : FunctionDeclaration → Option String := fun _ => none

/-- The returned call of the end-to-end example declaration:
`FLAG.isActivated("3fa85f64-5717-4562-b3fc-2c963f66afa6", "2023-01-01")`. -/
def checkXCall : TsExpr :=
  TsExpr.callExpr
    (TsExpr.propAccess (TsExpr.identExpr "FLAG") "isActivated")
    (TsArgs.cons (TsExpr.litExpr "\"3fa85f64-5717-4562-b3fc-2c963f66afa6\"")
      (TsArgs.cons (TsExpr.litExpr "\"2023-01-01\"") TsArgs.nil))

/-- The end-to-end example declaration:
`function checkX() \x7b return FLAG.isActivated("3fa85f64-5717-4562-b3fc-2c963f66afa6", "2023-01-01"); \x7d`. -/
def checkXDecl : FunctionDeclaration :=
  { name := "checkX"
    body := TsStmts.cons (TsStmt.retStmt (some checkXCall)) TsStmts.nil
    commentText := "" }

/-- The file containing `checkXDecl`; it imports a kill-switch symbol and its
text contains `.isActivated`, so the scan prefilter keeps it. -/
def ksFile : SourceFile :=
  { path := "src/ks.ts"
    importNames := ["SPKillSwitch"]
    text := "import \x7b SPKillSwitch \x7d from sp;\nfunction checkX() \x7b return FLAG.isActivated(\"3fa85f64-5717-4562-b3fc-2c963f66afa6\", \"2023-01-01\"); \x7d"
    functionDecls := [checkXDecl] }

/-- The end-to-end example project. -/
def ksProject : Project := { sourceFiles := [ksFile] }

/-- The call-site nodes of `if (!checkX()) \x7b doWork(); \x7d`:
the invocation, its negation, and the enclosing if statement. -/
def checkXCallNode : TNode :=
  { id := 1, kind := SynKind.callExpression, text := "checkX()" }

/-- The negation `!checkX()` wrapping the invocation. -/
def checkXNegNode : TNode :=
  { id := 2, kind := SynKind.prefixUnaryExpression, text := "!checkX()"
    opToken := some SynKind.exclamationToken }

/-- The if statement around the negated call. -/
def checkXIfNode : TNode :=
  { id := 3, kind := SynKind.ifStatement
    text := "if (!checkX()) \x7b doWork(); \x7d" }

/-- The resolved reference of `checkX` at the call site
`if (!checkX()) \x7b doWork(); \x7d` in `src/use.ts`. -/
def checkXRef : Reference :=
  { node := { id := 0, kind := SynKind.identifier, text := "checkX" }
    parent := some checkXCallNode
    grandparent := some checkXNegNode
    greatgrandparent := some checkXIfNode
    filePath := "src/use.ts"
    isCalleeOfParent := true }

/-- A declaration with the right shape whose first argument is the two-quote
literal `""`, so the extracted identifier is the empty string. -/
def emptyGuidDecl : FunctionDeclaration :=
  { name := "checkEmpty"
    body := TsStmts.cons (TsStmt.retStmt (some (TsExpr.callExpr
      (TsExpr.propAccess (TsExpr.identExpr "KS") "isActivated")
      (TsArgs.cons (TsExpr.litExpr "\"\"") TsArgs.nil)))) TsStmts.nil
    commentText := "" }

/-- The file holding `emptyGuidDecl`. -/
def emptyGuidFile : SourceFile :=
  { path := "src/a.ts"
    importNames := ["KillSwitch"]
    text := "import \x7b KillSwitch \x7d from ks; function checkEmpty() \x7b return KS.isActivated(\"\"); \x7d"
    functionDecls := [emptyGuidDecl] }

/-- The first returned call of `twoReturnsDecl`: `KS.isActivated("abc")`. -/
def twoReturnsFirstCall : TsExpr :=
  TsExpr.callExpr
    (TsExpr.propAccess (TsExpr.identExpr "KS") "isActivated")
    (TsArgs.cons (TsExpr.litExpr "\"abc\"") TsArgs.nil)

/-- A declaration with two return statements whose first one has the matching
`isActivated` shape with identifier `abc`; the second returns something else. -/
def twoReturnsDecl : FunctionDeclaration :=
  { name := "checkTwo"
    body := TsStmts.cons (TsStmt.retStmt (some twoReturnsFirstCall))
      (TsStmts.cons (TsStmt.retStmt (some (TsExpr.identExpr "y"))) TsStmts.nil)
    commentText := "" }

/-- The file holding `twoReturnsDecl`. -/
def twoReturnsFile : SourceFile :=
  { path := "src/two.ts"
    importNames := ["KillSwitch"]
    text := "import \x7b KillSwitch \x7d from ks; function checkTwo() \x7b return KS.isActivated(\"abc\"); return y; \x7d"
    functionDecls := [twoReturnsDecl] }

/-- A non-invocation reference: `const f = wrapper;` — the parent of the
reference node is a variable declaration, not a call. -/
def varDeclRef : Reference :=
  { node := { id := 10, kind := SynKind.identifier, text := "wrapper" }
    parent := some { id := 11, kind := SynKind.variableDeclaration, text := "f = wrapper" }
    grandparent := some { id := 12, kind := SynKind.otherKind, text := "const f = wrapper" }
    greatgrandparent := some { id := 13, kind := SynKind.otherKind, text := "const f = wrapper;" }
    filePath := "src/use.ts"
    isCalleeOfParent := false }

/-- A bare invocation reference: `const x = wrapper();`. -/
def bareCallRef : Reference :=
  { node := { id := 20, kind := SynKind.identifier, text := "wrapper" }
    parent := some { id := 21, kind := SynKind.callExpression, text := "wrapper()" }
    grandparent := some { id := 22, kind := SynKind.variableDeclaration, text := "x = wrapper()" }
    greatgrandparent := some { id := 23, kind := SynKind.otherKind, text := "const x = wrapper()" }
    filePath := "src/use.ts"
    isCalleeOfParent := true }

/-- The enclosing call `run(wrapper)` of which `wrapper` is an argument. -/
def argCallNode : TNode :=
  { id := 31, kind := SynKind.callExpression, text := "run(wrapper)" }

/-- The statement `run(wrapper);` around `argCallNode`. -/
def argStmtNode : TNode :=
  { id := 32, kind := SynKind.expressionStatement, text := "run(wrapper);" }

/-- An argument-position reference: `run(wrapper);` — the reference is an
argument of the enclosing call, not its callee. -/
def argRef : Reference :=
  { node := { id := 30, kind := SynKind.identifier, text := "wrapper" }
    parent := some argCallNode
    grandparent := some argStmtNode
    greatgrandparent := some { id := 33, kind := SynKind.otherKind, text := "" }
    filePath := "src/use.ts"
    isCalleeOfParent := false }

/-- The call `run(wrapper)` in negated position. -/
def negArgCallNode : TNode :=
  { id := 41, kind := SynKind.callExpression, text := "run(wrapper)" }

/-- The negation node of `!run(wrapper)`. -/
def negArgNegNode : TNode :=
  { id := 42, kind := SynKind.prefixUnaryExpression, text := "!run(wrapper)"
    opToken := some SynKind.exclamationToken }

/-- The if statement around `!run(wrapper)`. -/
def negArgIfNode : TNode :=
  { id := 43, kind := SynKind.ifStatement, text := "if (!run(wrapper)) \x7b \x7d" }

/-- An argument-position reference under a negation: `if (!run(wrapper)) ...` —
the reference is an argument of `run(wrapper)`, whose own parent is a `!`
prefix unary expression. -/
def negArgRef : Reference :=
  { node := { id := 40, kind := SynKind.identifier, text := "wrapper" }
    parent := some negArgCallNode
    grandparent := some negArgNegNode
    greatgrandparent := some negArgIfNode
    filePath := "src/use.ts"
    isCalleeOfParent := false }

/-- The spec's targeted-mode example declaration: identifier
`11111111-1111-1111-1111-111111111111` with a far-future second argument. -/
def futureDecl : FunctionDeclaration :=
  { name := "checkFuture"
    body := TsStmts.cons (TsStmt.retStmt (some (TsExpr.callExpr
      (TsExpr.propAccess (TsExpr.identExpr "KS") "isActivated")
      (TsArgs.cons (TsExpr.litExpr "\"11111111-1111-1111-1111-111111111111\"")
        (TsArgs.cons (TsExpr.litExpr "\"2999-01-01\"") TsArgs.nil))))) TsStmts.nil
    commentText := "" }

/-- The file holding `futureDecl`. -/
def futureFile : SourceFile :=
  { path := "src/future.ts"
    importNames := ["KillSwitch"]
    text := "import \x7b KillSwitch \x7d from ks; function checkFuture() \x7b return KS.isActivated(\"11111111-1111-1111-1111-111111111111\", \"2999-01-01\"); \x7d"
    functionDecls := [futureDecl] }

/-! ## Helper lemmas -/

/-- The empty string is not a valid UUID. -/
theorem uuidValidate_empty : uuidValidate "" = false := by decide

/-- A reference whose parent is not a call expression is skipped without any
change to the state (lines 117–121). -/
theorem replaceStep_skip (s : ReplaceState) (r : Reference)
    (h : parentIsCall r = false) : replaceStep s r = s := by
  unfold replaceStep
  cases hp : r.parent with
  | none => rfl
  | some p =>
    have hk : p.kind ≠ SynKind.callExpression := by
      unfold parentIsCall at h
      rw [hp] at h
      simpa using h
    simp [hk]

/-- Every `replaceWithText` call appends one entry to the edit record. -/
theorem recordReplacement_edits (s : ReplaceState) (e : TNode × String)
    (np : Option TNode) (fp : String) :
    (recordReplacement s e np fp).edits = s.edits ++ [e] := by
  unfold recordReplacement
  cases np <;> rfl

/-- Membership in a `Set` is preserved by `add`. -/
theorem mem_addUnique_of_mem {α : Type} [DecidableEq α] (l : List α) (a b : α)
    (h : a ∈ l) : a ∈ addUnique l b := by
  unfold addUnique
  split
  · exact h
  · exact List.mem_append_left _ h

/-- Adding an element puts it into the `Set`. -/
theorem mem_addUnique_self {α : Type} [DecidableEq α] (l : List α) (a : α) :
    a ∈ addUnique l a := by
  unfold addUnique
  split
  · assumption
  · exact List.mem_append_right _ (by simp)

/-- Lemma: `recordReplacement` preserves work-list membership. -/
theorem recordReplacement_workList_mono (s : ReplaceState) (e : TNode × String)
    (np : Option TNode) (fp : String) (x : TNode) (h : x ∈ s.workList) :
    x ∈ (recordReplacement s e np fp).workList := by
  unfold recordReplacement
  cases np with
  | none => exact h
  | some n => exact mem_addUnique_of_mem _ _ _ h

/-- Lemma: `recordReplacement` preserves touched-file membership. -/
theorem recordReplacement_refFiles_mono (s : ReplaceState) (e : TNode × String)
    (np : Option TNode) (fp : String) (x : String) (h : x ∈ s.refFiles) :
    x ∈ (recordReplacement s e np fp).refFiles := by
  unfold recordReplacement
  cases np with
  | none => exact h
  | some n => exact mem_addUnique_of_mem _ _ _ h

/-- One loop iteration preserves recorded edits. -/
theorem replaceStep_edits_mono (s : ReplaceState) (r : Reference)
    (x : TNode × String) (h : x ∈ s.edits) : x ∈ (replaceStep s r).edits := by
  unfold replaceStep
  split
  · exact h
  · split
    · exact h
    · split
      · split
        · rw [recordReplacement_edits]; exact List.mem_append_left _ h
        · rw [recordReplacement_edits]; exact List.mem_append_left _ h
      · rw [recordReplacement_edits]; exact List.mem_append_left _ h

/-- One loop iteration preserves work-list membership. -/
theorem replaceStep_workList_mono (s : ReplaceState) (r : Reference)
    (x : TNode) (h : x ∈ s.workList) : x ∈ (replaceStep s r).workList := by
  unfold replaceStep
  split
  · exact h
  · split
    · exact h
    · split
      · split
        · exact recordReplacement_workList_mono _ _ _ _ _ h
        · exact recordReplacement_workList_mono _ _ _ _ _ h
      · exact recordReplacement_workList_mono _ _ _ _ _ h

/-- One loop iteration preserves touched-file membership. -/
theorem replaceStep_refFiles_mono (s : ReplaceState) (r : Reference)
    (x : String) (h : x ∈ s.refFiles) : x ∈ (replaceStep s r).refFiles := by
  unfold replaceStep
  split
  · exact h
  · split
    · exact h
    · split
      · split
        · exact recordReplacement_refFiles_mono _ _ _ _ _ h
        · exact recordReplacement_refFiles_mono _ _ _ _ _ h
      · exact recordReplacement_refFiles_mono _ _ _ _ _ h

/-- The whole loop preserves recorded edits. -/
theorem foldl_edits_mono (l : List Reference) (s : ReplaceState)
    (x : TNode × String) (h : x ∈ s.edits) :
    x ∈ (l.foldl replaceStep s).edits := by
  induction l generalizing s with
  | nil => simpa using h
  | cons r rest ih => exact ih _ (replaceStep_edits_mono _ _ _ h)

/-- The whole loop preserves work-list membership. -/
theorem foldl_workList_mono (l : List Reference) (s : ReplaceState)
    (x : TNode) (h : x ∈ s.workList) :
    x ∈ (l.foldl replaceStep s).workList := by
  induction l generalizing s with
  | nil => simpa using h
  | cons r rest ih => exact ih _ (replaceStep_workList_mono _ _ _ h)

/-- The whole loop preserves touched-file membership. -/
theorem foldl_refFiles_mono (l : List Reference) (s : ReplaceState)
    (x : String) (h : x ∈ s.refFiles) :
    x ∈ (l.foldl replaceStep s).refFiles := by
  induction l generalizing s with
  | nil => simpa using h
  | cons r rest ih => exact ih _ (replaceStep_refFiles_mono _ _ _ h)

/-- A loop over references that all fail the invocation guard leaves the
state untouched. -/
theorem foldl_skip_all (l : List Reference) (s : ReplaceState)
    (h : ∀ r ∈ l, parentIsCall r = false) : l.foldl replaceStep s = s := by
  induction l generalizing s with
  | nil => rfl
  | cons r rest ih =>
    rw [List.foldl_cons, replaceStep_skip s r (h r (by simp))]
    exact ih s fun r2 hr2 => h r2 (by simp [hr2])

/-- On an invocation wrapped by a `!` prefix unary expression, the iteration
replaces the negation with `true` (lines 126–127). -/
theorem replaceStep_negated (s : ReplaceState) (r : Reference) (parent g : TNode)
    (hp : r.parent = some parent) (hk : parent.kind = SynKind.callExpression)
    (hg : negationOf r = some g) (hop : g.opToken = some SynKind.exclamationToken) :
    replaceStep s r = recordReplacement s (g, "true") r.greatgrandparent r.filePath := by
  unfold replaceStep
  rw [hp, hg]
  simp [hk, hop]

/-- On an invocation not wrapped by a `!` negation, the iteration replaces the
invocation with `false` (lines 128–129). -/
theorem replaceStep_plain (s : ReplaceState) (r : Reference) (parent : TNode)
    (hp : r.parent = some parent) (hk : parent.kind = SynKind.callExpression)
    (hng : isNegatedCall r = false) :
    replaceStep s r = recordReplacement s (parent, "false") r.grandparent r.filePath := by
  unfold replaceStep
  rw [hp]
  unfold isNegatedCall at hng
  cases hn : negationOf r with
  | none => simp [hk, hn]
  | some g =>
    rw [hn] at hng
    have hop : (g.opToken == some SynKind.exclamationToken) = false := by
      simpa using hng
    simp [hk, hn, hop]

/-- Lemma: `recordReplacement` with an existing parent adds that parent to the
work list. -/
theorem recordReplacement_workList_some (s : ReplaceState) (e : TNode × String)
    (np : TNode) (fp : String) :
    (recordReplacement s e (some np) fp).workList = addUnique s.workList np := rfl

/-- Lemma: `recordReplacement` with an existing parent adds the file to the
touched set. -/
theorem recordReplacement_refFiles_some (s : ReplaceState) (e : TNode × String)
    (np : TNode) (fp : String) :
    (recordReplacement s e (some np) fp).refFiles = addUnique s.refFiles fp := rfl

/-! ## Claim theorems -/

/-- C3: for every reference whose immediate parent is a call expression —
if the call's own parent is a prefix unary expression with operator `!`, the
run replaces that negation node's text with the literal `true`; otherwise it
replaces the call node's text with the literal `false`. So `!wrapper()`
becomes `true` and a bare `wrapper()` (including `const x = wrapper();`)
becomes `false`, never `true`. -/
theorem replace_negation_law (refs : List Reference) (r : Reference)
    (parent : TNode) (hr : r ∈ refs) (hp : r.parent = some parent)
    (hk : parent.kind = SynKind.callExpression) :
    (∀ g, negationOf r = some g → g.opToken = some SynKind.exclamationToken →
      (g, "true") ∈ (replaceFunCallWithFalse refs).edits) ∧
    (isNegatedCall r = false →
      (parent, "false") ∈ (replaceFunCallWithFalse refs).edits) := by
  obtain ⟨l1, l2, rfl⟩ := List.append_of_mem hr
  unfold replaceFunCallWithFalse
  rw [List.foldl_append, List.foldl_cons]
  constructor
  · intro g hg hop
    apply foldl_edits_mono
    rw [replaceStep_negated _ _ _ _ hp hk hg hop, recordReplacement_edits]
    simp
  · intro hng
    apply foldl_edits_mono
    rw [replaceStep_plain _ _ _ hp hk hng, recordReplacement_edits]
    simp

/-- Witness for C3 at the concrete negated call site `if (!checkX()) ...`:
the negation node is replaced with `true`. -/
theorem replace_negation_law_witness :
    (checkXNegNode, "true") ∈ (replaceFunCallWithFalse [checkXRef]).edits :=
  (replace_negation_law [checkXRef] checkXRef checkXCallNode (by simp)
    rfl rfl).1 checkXNegNode rfl rfl

/-- C7: on a declaration none of whose references has a call-expression
parent any longer (as after a completed replacement pass), the run returns an
empty modified-node set and an empty modified-file list. -/
theorem replace_idempotent_on_replaced (refs : List Reference)
    (h : ∀ r ∈ refs, parentIsCall r = false) :
    (replaceFunCallWithFalse refs).workList = [] ∧
    (replaceFunCallWithFalse refs).refFiles = [] := by
  unfold replaceFunCallWithFalse
  rw [foldl_skip_all refs _ h]
  exact ⟨rfl, rfl⟩

/-- Witness for C7: a declaration whose only remaining reference sits in a
variable declaration yields empty results. -/
theorem replace_idempotent_on_replaced_witness :
    (replaceFunCallWithFalse [varDeclRef]).workList = [] ∧
    (replaceFunCallWithFalse [varDeclRef]).refFiles = [] :=
  replace_idempotent_on_replaced [varDeclRef] (by decide)

/-- C8: a reference whose immediate parent is not a call expression (such as
`const f = wrapper;`) is skipped: the run over the references with it is the
run over the references without it — no text is replaced for it, and nothing
is added to the modified-node set or the modified-file list on its account. -/
theorem replace_skips_non_invocation_refs (l1 l2 : List Reference)
    (r : Reference) (h : parentIsCall r = false) :
    replaceFunCallWithFalse (l1 ++ r :: l2) = replaceFunCallWithFalse (l1 ++ l2) := by
  unfold replaceFunCallWithFalse
  rw [List.foldl_append, List.foldl_cons, replaceStep_skip _ _ h, ← List.foldl_append]

/-- Witness for C8: dropping the `const f = wrapper;` reference from a run
leaves the result unchanged. -/
theorem replace_skips_non_invocation_refs_witness :
    replaceFunCallWithFalse ([bareCallRef] ++ varDeclRef :: [checkXRef]) =
      replaceFunCallWithFalse ([bareCallRef] ++ [checkXRef]) :=
  replace_skips_non_invocation_refs [bareCallRef] [checkXRef] varDeclRef (by decide)

/-- Counterexample to C10 as stated: for the argument-position reference in
`if (!run(wrapper))`, the parent `run(wrapper)` is a call expression and the
reference is not the callee, yet the engine replaces the negation node with
`true` — the enclosing call's text is not replaced with `false`. -/
theorem argument_ref_negated_counterexample :
    parentIsCall negArgRef = true ∧ negArgRef.isCalleeOfParent = false ∧
    replaceFunCallWithFalse [negArgRef] =
      { workList := [negArgIfNode], refFiles := ["src/use.ts"],
        edits := [(negArgNegNode, "true")] } := by decide

/-- C10 (amended): the engine distinguishes references only by the syntax
kind of their immediate parent and never checks that the reference is the
invoked callee; for a reference occurring as an argument of another call
(parent a call expression, reference not the callee), provided the enclosing
call is not itself the operand of a `!` prefix unary expression, the entire
enclosing call's text is replaced with the literal `false`, the call's parent
is recorded as modified, and the file is recorded as touched. (The only
change forced by the counterexample: when the enclosing call is negated, the
negation is replaced with `true` instead.) -/
theorem argument_ref_replaced_with_false (refs : List Reference) (r : Reference)
    (parent gp : TNode) (hr : r ∈ refs) (hp : r.parent = some parent)
    (hk : parent.kind = SynKind.callExpression)
    (hcallee : r.isCalleeOfParent = false)
    (hng : isNegatedCall r = false)
    (hgp : r.grandparent = some gp) :
    (parent, "false") ∈ (replaceFunCallWithFalse refs).edits ∧
    gp ∈ (replaceFunCallWithFalse refs).workList ∧
    r.filePath ∈ (replaceFunCallWithFalse refs).refFiles := by
  obtain ⟨l1, l2, rfl⟩ := List.append_of_mem hr
  unfold replaceFunCallWithFalse
  rw [List.foldl_append, List.foldl_cons, replaceStep_plain _ _ _ hp hk hng, hgp]
  refine ⟨?_, ?_, ?_⟩
  · apply foldl_edits_mono
    rw [recordReplacement_edits]
    simp
  · apply foldl_workList_mono
    rw [recordReplacement_workList_some]
    exact mem_addUnique_self _ _
  · apply foldl_refFiles_mono
    rw [recordReplacement_refFiles_some]
    exact mem_addUnique_self _ _

/-- Witness for the amended C10 at `run(wrapper);`: the enclosing call is
replaced with `false` and counted. -/
theorem argument_ref_replaced_with_false_witness :
    (argCallNode, "false") ∈ (replaceFunCallWithFalse [argRef]).edits ∧
    argStmtNode ∈ (replaceFunCallWithFalse [argRef]).workList ∧
    "src/use.ts" ∈ (replaceFunCallWithFalse [argRef]).refFiles :=
  argument_ref_replaced_with_false [argRef] argRef argCallNode argStmtNode
    (by simp) rfl rfl rfl rfl rfl
theorem extractedGuid_eq_bind (d : FunctionDeclaration) :
    extractedGuid d = (returnExprIfCall d).bind fun c =>
      ((callArgTexts c).get? 0).map fun t => jsSubstring t 1 ((t.length : Int) - 1) := by
  unfold extractedGuid
  cases returnExprIfCall d <;> rfl

theorem selectGuid_eq_some_guid (pd : String → Option Int) (tid : Option String)
    (th : Int) (cq : Option TsExpr) (cd : Option String) (g : String)
    (h : selectGuid pd tid th cq cd = some g) :
    (cq.bind fun c =>
      ((callArgTexts c).get? 0).map fun t => jsSubstring t 1 ((t.length : Int) - 1)) = some g := by
  cases cq with
  | none => simp [selectGuid] at h
  | some c =>
    show ((callArgTexts c).get? 0).map (fun t => jsSubstring t 1 ((t.length : Int) - 1)) = some g
    unfold selectGuid at h
    dsimp only at h
    split at h
    · simp at h
    · split at h
      · split at h
        · split at h
          · simp_all
          · simp at h
        · simp at h
      · split at h
        · split at h
          · split at h
            · split at h
              · split at h
                · split at h
                  · simp_all
                  · simp at h
                · simp at h
              · simp at h
            · simp at h
          · simp at h
        · simp at h
theorem selectDecl_eq_some (pd : String → Option Int)
    (x : FunctionDeclaration → Option String) (tid : Option String) (th : Int)
    (d : FunctionDeclaration) (p : FunctionDeclaration × String)
    (h : selectDecl pd x tid th d = some p) :
    p.1 = d ∧ extractedGuid d = some p.2 := by
  unfold selectDecl at h
  cases hg : selectGuid pd tid th (returnExprIfCall d) (x d) with
  | none => rw [hg] at h; simp at h
  | some g =>
    rw [hg] at h
    simp only [Option.map_some'] at h
    replace h := Option.some.inj h
    subst h
    refine ⟨rfl, ?_⟩
    rw [extractedGuid_eq_bind]
    exact selectGuid_eq_some_guid pd tid th (returnExprIfCall d) (x d) g hg

theorem mem_findKS_ksDecls_iff (pd : String → Option Int)
    (x : FunctionDeclaration → Option String) (now : Int) (prj : Project)
    (opts : ICoreOptions) (d : FunctionDeclaration) :
    d ∈ (findKSDeclaration pd x now prj opts).1.ksDecls ↔
      ∃ f ∈ (consideredFiles prj opts).1, d ∈ f.functionDecls ∧
        (selectDecl pd x opts.targetId
          (opts.thresholdDate.getD (defaultDate now)) d).isSome := by
  constructor
  · intro hmem
    simp only [findKSDeclaration, List.mem_map, List.mem_flatMap,
      List.mem_filterMap] at hmem
    obtain ⟨p, ⟨f, hf, a, ha, hsel⟩, hfst⟩ := hmem
    obtain ⟨h1, _⟩ := selectDecl_eq_some _ _ _ _ _ _ hsel
    rw [hfst] at h1
    subst h1
    exact ⟨f, hf, ha, by rw [hsel]; rfl⟩
  · rintro ⟨f, hf, hd, hsel⟩
    rw [Option.isSome_iff_exists] at hsel
    obtain ⟨p, hp⟩ := hsel
    have h1 := (selectDecl_eq_some _ _ _ _ _ _ hp).1
    simp only [findKSDeclaration, List.mem_map, List.mem_flatMap,
      List.mem_filterMap]
    exact ⟨p, ⟨f, hf, d, hd, hp⟩, h1⟩
theorem selectDecl_targeted_isSome (pd : String → Option Int)
    (x : FunctionDeclaration → Option String) (th : Int)
    (d : FunctionDeclaration) (c : TsExpr) (tid : String)
    (hc : returnExprIfCall d = some c)
    (hname : calleeMemberName c = some KS_ACTIVATED_METHOD)
    (htid : tid ≠ "") :
    (selectDecl pd x (some tid) th d).isSome = true ↔
      extractedGuid d = some tid := by
  unfold selectDecl selectGuid
  rw [hc, extractedGuid_eq_bind, hc]
  dsimp only
  rw [if_neg (by simp [hname])]
  rw [if_pos (by simp [isTruthy, htid])]
  cases harg : (callArgTexts c).get? 0 with
  | none => rw [List.get?_eq_getElem?] at harg; simp [harg]
  | some t =>
    rw [List.get?_eq_getElem?] at harg
    by_cases hbe : jsSubstring t 1 ((t.length : Int) - 1) = tid <;> simp [harg, hbe]
theorem selectDecl_scan_isSome (pd : String → Option Int)
    (x : FunctionDeclaration → Option String) (th : Int)
    (d : FunctionDeclaration) (c : TsExpr) (g : String)
    (hc : returnExprIfCall d = some c)
    (hname : calleeMemberName c = some KS_ACTIVATED_METHOD)
    (hg : extractedGuid d = some g) :
    (selectDecl pd x none th d).isSome = true ↔
      (uuidValidate g = true ∧ ∃ t, resolvedDate pd x d = some t ∧ t < th) := by
  rw [extractedGuid_eq_bind, hc] at hg
  simp only [Option.some_bind, List.get?_eq_getElem?] at hg
  unfold selectDecl selectGuid
  rw [hc]
  dsimp only
  rw [if_neg (by simp [hname])]
  rw [if_neg (by simp [isTruthy])]
  simp only [List.get?_eq_getElem?]
  rw [hg]
  unfold resolvedDate resolvedDateString
  rw [hc]
  simp only [List.get?_eq_getElem?]
  by_cases hgE : g = ""
  · subst hgE
    simp [uuidValidate_empty]
  · cases huu : uuidValidate g with
    | false => simp [huu, hgE]
    | true =>
      cases hsa : (callArgTexts c)[1]? with
      | none =>
        cases hcd : x d with
        | none => simp [hgE, huu, hsa, hcd]
        | some ds =>
          by_cases hds : ds = ""
          · subst hds; simp [hgE, huu, hsa, hcd]
          · cases hpd : pd ds with
            | none => simp [hgE, huu, hsa, hcd, hds, hpd]
            | some t =>
              by_cases hlt : t < th <;> simp [hgE, huu, hsa, hcd, hds, hpd, hlt]
      | some sa =>
        by_cases hcond : (decide (sa ≠ "") && (pd sa).isSome) = true
        · have h12 : sa ≠ "" ∧ (pd sa).isSome = true := by simpa using hcond
          cases hpd : pd sa with
          | none => rw [hpd] at h12; simp at h12
          | some t =>
            by_cases hlt : t < th <;>
              simp [hgE, huu, hsa, hcond, h12.1, hpd, hlt]
        · rw [Bool.not_eq_true] at hcond
          have hcondP : ¬(¬ sa = "" ∧ (pd sa).isSome = true) := fun hand => by
            simp [hand.1, hand.2] at hcond
          cases hcd : x d with
          | none => simp [hgE, huu, hsa, hcondP, hcd]
          | some ds =>
            by_cases hds : ds = ""
            · subst hds; simp [hgE, huu, hsa, hcondP, hcd]
            · cases hpd : pd ds with
              | none => simp [hgE, huu, hsa, hcondP, hcd, hds, hpd]
              | some t =>
                by_cases hlt : t < th <;>
                  simp [hgE, huu, hsa, hcondP, hcd, hds, hpd, hlt]
/-- C1: in scan mode (no targetId in the options), a declaration that passes
the structural match, with extracted identifier `g`, is included in the
discovery result iff `g` is a valid UUID and a graduation date resolves
(preferring the second call argument when its text parses as a date, else the
comment scan) and that date is strictly earlier than the threshold date
(caller-supplied, defaulting to now minus 180 days). -/
theorem findKS_scan_mode_selects_iff (pd : String → Option Int)
    (x : FunctionDeclaration → Option String) (now : Int) (prj : Project)
    (opts : ICoreOptions) (f : SourceFile) (d : FunctionDeclaration)
    (c : TsExpr) (g : String)
    (hmode : opts.targetId = none)
    (hf : f ∈ (consideredFiles prj opts).1)
    (hd : d ∈ f.functionDecls)
    (hc : returnExprIfCall d = some c)
    (hname : calleeMemberName c = some KS_ACTIVATED_METHOD)
    (hg : extractedGuid d = some g) :
    d ∈ (findKSDeclaration pd x now prj opts).1.ksDecls ↔
      (uuidValidate g = true ∧
       ∃ t, resolvedDate pd x d = some t ∧
         t < opts.thresholdDate.getD (defaultDate now)) := by
  rw [mem_findKS_ksDecls_iff, hmode]
  constructor
  · rintro ⟨f2, hf2, hd2, hsel⟩
    exact (selectDecl_scan_isSome pd x _ d c g hc hname hg).mp hsel
  · intro hrhs
    exact ⟨f, hf, hd, (selectDecl_scan_isSome pd x _ d c g hc hname hg).mpr hrhs⟩
/-- Witness for C1 at the end-to-end data: the iff instantiated at `checkX`
with threshold 2024-01-01. -/
theorem findKS_scan_mode_selects_iff_witness :
    checkXDecl ∈ (findKSDeclaration pdExample noCommentDate 0 ksProject
      { targetId := none, ksFilePath := none,
        thresholdDate := some 1704067200000 }).1.ksDecls ↔
      (uuidValidate "3fa85f64-5717-4562-b3fc-2c963f66afa6" = true ∧
       ∃ t, resolvedDate pdExample noCommentDate checkXDecl = some t ∧
         t < (some (1704067200000 : Int)).getD (defaultDate 0)) :=
  findKS_scan_mode_selects_iff pdExample noCommentDate 0 ksProject
    { targetId := none, ksFilePath := none, thresholdDate := some 1704067200000 }
    ksFile checkXDecl checkXCall "3fa85f64-5717-4562-b3fc-2c963f66afa6"
    rfl (by decide) (by decide) rfl rfl rfl

/-- Counterexample to C2 as stated: with `targetId` provided as the empty
string, the declaration whose extracted identifier string-equals that
targetId exactly is still not selected — JavaScript truthiness sends an empty
`targetId` into scan mode, which rejects the empty identifier. -/
theorem targeted_mode_empty_targetId_counterexample :
    extractedGuid emptyGuidDecl = some "" ∧
    (findKSDeclaration pdExample noCommentDate 0 { sourceFiles := [emptyGuidFile] }
      { targetId := some "", ksFilePath := some "src/a.ts",
        thresholdDate := some 0 }).1.ksDecls = [] := by
  constructor
  · rfl
  · decide

/-- C2 (amended): in targeted mode with a non-empty `targetId`, a
structurally matching declaration in a considered file is selected iff its
extracted identifier string-equals `targetId` exactly; no UUID-format
validation and no date check is performed, so a declaration whose embedded
date is in the future (or whose identifier is not a valid UUID) is still
selected when its identifier matches. (The only change forced by the
counterexample: `targetId` must be non-empty, since an empty string is falsy
and the code falls back to scan mode.) -/
theorem findKS_targeted_mode_selects_iff (pd : String → Option Int)
    (x : FunctionDeclaration → Option String) (now : Int) (prj : Project)
    (opts : ICoreOptions) (f : SourceFile) (d : FunctionDeclaration)
    (c : TsExpr) (tid : String)
    (hmode : opts.targetId = some tid) (htid : tid ≠ "")
    (hf : f ∈ (consideredFiles prj opts).1)
    (hd : d ∈ f.functionDecls)
    (hc : returnExprIfCall d = some c)
    (hname : calleeMemberName c = some KS_ACTIVATED_METHOD) :
    d ∈ (findKSDeclaration pd x now prj opts).1.ksDecls ↔
      extractedGuid d = some tid := by
  rw [mem_findKS_ksDecls_iff, hmode]
  constructor
  · rintro ⟨f2, hf2, hd2, hsel⟩
    exact (selectDecl_targeted_isSome pd x _ d c tid hc hname htid).mp hsel
  · intro hrhs
    exact ⟨f, hf, hd,
      (selectDecl_targeted_isSome pd x _ d c tid hc hname htid).mpr hrhs⟩

/-- Witness for the amended C2 at the spec's own example: targetId
`11111111-1111-1111-1111-111111111111` (not even a variant-valid UUID)
matches a declaration whose embedded date 2999-01-01 lies in the future. -/
theorem findKS_targeted_mode_selects_iff_witness :
    futureDecl ∈ (findKSDeclaration pdExample noCommentDate 0
      { sourceFiles := [futureFile] }
      { targetId := some "11111111-1111-1111-1111-111111111111",
        ksFilePath := none, thresholdDate := none }).1.ksDecls ↔
      extractedGuid futureDecl = some "11111111-1111-1111-1111-111111111111" :=
  findKS_targeted_mode_selects_iff pdExample noCommentDate 0
    { sourceFiles := [futureFile] }
    { targetId := some "11111111-1111-1111-1111-111111111111",
      ksFilePath := none, thresholdDate := none }
    futureFile futureDecl
    (TsExpr.callExpr (TsExpr.propAccess (TsExpr.identExpr "KS") "isActivated")
      (TsArgs.cons (TsExpr.litExpr "\"11111111-1111-1111-1111-111111111111\"")
        (TsArgs.cons (TsExpr.litExpr "\"2999-01-01\"") TsArgs.nil)))
    "11111111-1111-1111-1111-111111111111"
    rfl (by decide) (by decide) (by decide) rfl rfl

/-- Pairs produced by the selection loop carry the declaration's own
extracted identifier. -/
theorem selected_pair_guid (pd : String → Option Int)
    (x : FunctionDeclaration → Option String) (tid : Option String) (th : Int)
    (fs : List SourceFile) (p : FunctionDeclaration × String)
    (hp : p ∈ fs.flatMap fun f => f.functionDecls.filterMap (selectDecl pd x tid th)) :
    extractedGuid p.1 = some p.2 := by
  simp only [List.mem_flatMap, List.mem_filterMap] at hp
  obtain ⟨f, hf, a, ha, hsel⟩ := hp
  obtain ⟨h1, h2⟩ := selectDecl_eq_some _ _ _ _ _ _ hsel
  rw [h1]
  exact h2

/-- Lists obtained as first and second projections of one pair list are
equally long and aligned through `F`. -/
theorem map_fst_snd_aligned {α β : Type} (L : List (α × β)) (F : α → Option β)
    (hL : ∀ p ∈ L, F p.1 = some p.2) :
    (L.map Prod.fst).length = (L.map Prod.snd).length ∧
    ∀ i (h1 : i < (L.map Prod.fst).length) (h2 : i < (L.map Prod.snd).length),
      F ((L.map Prod.fst).get ⟨i, h1⟩) = some ((L.map Prod.snd).get ⟨i, h2⟩) := by
  refine ⟨by simp, ?_⟩
  intro i h1 h2
  rw [List.get_eq_getElem, List.get_eq_getElem, List.getElem_map, List.getElem_map]
  exact hL _ (List.getElem_mem _)

/-- C9: the declarations list and the identifiers list returned by discovery
always have equal length and are index-aligned — at every index, the
identifier is exactly the identifier extracted from the declaration at that
index, in both modes, for every project and options record. -/
theorem findKS_result_index_aligned (pd : String → Option Int)
    (x : FunctionDeclaration → Option String) (now : Int) (prj : Project)
    (opts : ICoreOptions) :
    (findKSDeclaration pd x now prj opts).1.ksDecls.length =
      (findKSDeclaration pd x now prj opts).1.guids.length ∧
    ∀ i (h1 : i < (findKSDeclaration pd x now prj opts).1.ksDecls.length)
      (h2 : i < (findKSDeclaration pd x now prj opts).1.guids.length),
      extractedGuid ((findKSDeclaration pd x now prj opts).1.ksDecls.get ⟨i, h1⟩) =
        some ((findKSDeclaration pd x now prj opts).1.guids.get ⟨i, h2⟩) :=
  map_fst_snd_aligned _ extractedGuid
    (selected_pair_guid pd x opts.targetId
      (opts.thresholdDate.getD (defaultDate now)) (consideredFiles prj opts).1)

/-- Witness for C9 at a run with one selected declaration, index 0. -/
theorem findKS_result_index_aligned_witness :
    extractedGuid ((findKSDeclaration pdExample noCommentDate 0 ksProject
      { targetId := none, ksFilePath := none,
        thresholdDate := some 1704067200000 }).1.ksDecls.get
        ⟨0, by decide⟩) =
      some ((findKSDeclaration pdExample noCommentDate 0 ksProject
        { targetId := none, ksFilePath := none,
          thresholdDate := some 1704067200000 }).1.guids.get ⟨0, by decide⟩) :=
  (findKS_result_index_aligned pdExample noCommentDate 0 ksProject
    { targetId := none, ksFilePath := none,
      thresholdDate := some 1704067200000 }).2 0 (by decide) (by decide)
/-- Counterexample to C5 as stated: a declaration with two meaningful return
statements (so not "a single meaningful return") whose first one has the
`isActivated` call shape is accepted by the locator — here selected in
targeted mode — because only the first return-statement descendant is
inspected and no single-return check is performed. -/
theorem first_return_only_counterexample :
    twoReturnsDecl.body = TsStmts.cons (TsStmt.retStmt (some twoReturnsFirstCall))
      (TsStmts.cons (TsStmt.retStmt (some (TsExpr.identExpr "y"))) TsStmts.nil) ∧
    (findKSDeclaration pdExample noCommentDate 0 { sourceFiles := [twoReturnsFile] }
      { targetId := some "abc", ksFilePath := some "src/two.ts",
        thresholdDate := none }).1.ksDecls = [twoReturnsDecl] := by
  constructor
  · rfl
  · decide

/-- C5 (amended): the locator inspects only the first return-statement
descendant — a declaration whose first return descendant is missing or is not
a call to a member named exactly `isActivated` is skipped silently without
error, and two declarations with equal first-return call expressions and
equal comment-extraction results are accepted or rejected alike, regardless
of any further return statements in their bodies. (The only change forced by
the counterexample: no single-return requirement — later returns are
ignored.) -/
theorem structural_match_uses_first_return (pd : String → Option Int)
    (x : FunctionDeclaration → Option String) (tid : Option String) (th : Int)
    (d : FunctionDeclaration) :
    (structuralMatch d = false → selectDecl pd x tid th d = none) ∧
    (∀ d2, returnExprIfCall d2 = returnExprIfCall d → x d2 = x d →
      (selectDecl pd x tid th d2).isSome = (selectDecl pd x tid th d).isSome) := by
  constructor
  · intro hsm
    unfold structuralMatch at hsm
    unfold selectDecl selectGuid
    cases hc : returnExprIfCall d with
    | none => rfl
    | some c =>
      rw [hc] at hsm
      have hne : calleeMemberName c ≠ some KS_ACTIVATED_METHOD := by simpa using hsm
      simp [hne]
  · intro d2 h1 h2
    unfold selectDecl
    rw [h1, h2]
    cases selectGuid pd tid th (returnExprIfCall d) (x d) <;> rfl

/-- Witness for the amended C5: a body with no return is skipped, and the
two-return declaration is treated exactly like its one-return truncation. -/
theorem structural_match_uses_first_return_witness :
    selectDecl pdExample noCommentDate (some "abc") 0
      { name := "noRet", body := TsStmts.nil, commentText := "" } = none ∧
    (selectDecl pdExample noCommentDate (some "abc") 0
      { name := "checkOne",
        body := TsStmts.cons (TsStmt.retStmt (some twoReturnsFirstCall)) TsStmts.nil,
        commentText := "" }).isSome =
      (selectDecl pdExample noCommentDate (some "abc") 0 twoReturnsDecl).isSome :=
  ⟨(structural_match_uses_first_return pdExample noCommentDate (some "abc") 0
      { name := "noRet", body := TsStmts.nil, commentText := "" }).1 (by decide),
   (structural_match_uses_first_return pdExample noCommentDate (some "abc") 0
      twoReturnsDecl).2
      { name := "checkOne",
        body := TsStmts.cons (TsStmt.retStmt (some twoReturnsFirstCall)) TsStmts.nil,
        commentText := "" }
      (by decide) rfl⟩

/-- Counterexample to C6 as stated: an options record whose `ksFilePath` is
the empty string — which resolves to no file of the project — produces no
diagnostic at all and a non-empty result: the falsy empty path sends the run
into scan mode instead of the reported-error path. -/
theorem empty_ksFilePath_counterexample :
    (ksProject.sourceFiles.all fun f => f.path ≠ "") = true ∧
    (findKSDeclaration pdExample noCommentDate 0 ksProject
      { targetId := none, ksFilePath := some "",
        thresholdDate := some 1704067200000 }) =
      ({ ksDecls := [checkXDecl],
         guids := ["3fa85f64-5717-4562-b3fc-2c963f66afa6"] }, []) := by
  constructor
  · decide
  · decide

/-- C6 (amended): for every options record whose `ksFilePath` is a non-empty
string that does not resolve to a file of the project, discovery does not
raise: it reports the error to the diagnostics channel and proceeds as if
zero files matched, returning empty declaration and identifier lists. (The
only change forced by the counterexample: the path must be non-empty — an
empty `ksFilePath` string is falsy and sends the run into scan mode with no
diagnostic.) -/
theorem invalid_ksFilePath_logs_and_returns_empty (pd : String → Option Int)
    (x : FunctionDeclaration → Option String) (now : Int) (prj : Project)
    (opts : ICoreOptions) (p : String)
    (hp : opts.ksFilePath = some p) (hne : p ≠ "")
    (hnf : ∀ f ∈ prj.sourceFiles, f.path ≠ p) :
    findKSDeclaration pd x now prj opts =
      ({ ksDecls := [], guids := [] }, ["Invalid KS file path: " ++ p]) := by
  have hfind : prj.sourceFiles.find? (fun f => f.path == p) = none := by
    rw [List.find?_eq_none]
    intro f hf
    simp [hnf f hf]
  have hcf : consideredFiles prj opts = ([], ["Invalid KS file path: " ++ p]) := by
    unfold consideredFiles
    rw [hp]
    rw [if_pos (by simp [isTruthy, hne])]
    simp only [Option.getD_some]
    rw [hfind]
  unfold findKSDeclaration
  rw [hcf]
  rfl

/-- Witness for the amended C6 at a concrete unresolvable path. -/
theorem invalid_ksFilePath_logs_and_returns_empty_witness :
    findKSDeclaration pdExample noCommentDate 0 ksProject
      { targetId := none, ksFilePath := some "no/such.ts",
        thresholdDate := none } =
      ({ ksDecls := [], guids := [] }, ["Invalid KS file path: no/such.ts"]) :=
  invalid_ksFilePath_logs_and_returns_empty pdExample noCommentDate 0 ksProject
    { targetId := none, ksFilePath := some "no/such.ts", thresholdDate := none }
    "no/such.ts" rfl (by decide) (by decide)
/-- C4: end-to-end — for the project defining
`function checkX() ... return FLAG.isActivated("3fa85f64-5717-4562-b3fc-2c963f66afa6", "2023-01-01"); ...`
in a file kept by discovery, provided the host date parser accepts the second
argument's text, quotes included, at a time before the threshold (the
claim's own proviso for the preferred path to fire), scan-mode discovery
selects exactly `checkX`; and on the reference at
`if (!checkX()) ... doWork(); ...` the replacement engine replaces the
negation `!checkX()` with `true`, so the call site becomes
`if (true) ... doWork(); ...`. -/
theorem end_to_end_checkX (pd : String → Option Int)
    (x : FunctionDeclaration → Option String) (now : Int) (t T : Int)
    (hparse : pd "\"2023-01-01\"" = some t)
    (hT : t < T) :
    (findKSDeclaration pd x now ksProject
      { targetId := none, ksFilePath := none, thresholdDate := some T }).1 =
      { ksDecls := [checkXDecl],
        guids := ["3fa85f64-5717-4562-b3fc-2c963f66afa6"] } ∧
    replaceFunCallWithFalse [checkXRef] =
      { workList := [checkXIfNode], refFiles := ["src/use.ts"],
        edits := [(checkXNegNode, "true")] } := by
  constructor
  · have hres : resolvedDate pd x checkXDecl = some t := by
      unfold resolvedDate resolvedDateString
      rw [show returnExprIfCall checkXDecl = some checkXCall from rfl]
      dsimp only
      rw [show (callArgTexts checkXCall).get? 1 = some "\"2023-01-01\"" from rfl]
      simp [hparse]
    have hiff := selectDecl_scan_isSome pd x T checkXDecl checkXCall
      "3fa85f64-5717-4562-b3fc-2c963f66afa6" rfl (by decide) (by decide)
    have hsome := hiff.mpr ⟨by decide, t, hres, hT⟩
    rw [Option.isSome_iff_exists] at hsome
    obtain ⟨p, hp⟩ := hsome
    obtain ⟨h1, h2⟩ := selectDecl_eq_some _ _ _ _ _ _ hp
    have hg2 : "3fa85f64-5717-4562-b3fc-2c963f66afa6" = p.2 := by
      have hcg : extractedGuid checkXDecl =
          some "3fa85f64-5717-4562-b3fc-2c963f66afa6" := by decide
      exact Option.some.inj (hcg.symm.trans h2)
    have hpeq : p = (checkXDecl, "3fa85f64-5717-4562-b3fc-2c963f66afa6") :=
      Prod.ext h1 hg2.symm
    rw [hpeq] at hp
    have hfiles : (consideredFiles ksProject
        { targetId := none, ksFilePath := none, thresholdDate := some T }).1 =
        [ksFile] := by
      unfold consideredFiles
      rw [if_neg (by simp [isTruthy])]
      show List.filter fileKeptInScan [ksFile] = [ksFile]
      decide
    unfold findKSDeclaration
    rw [hfiles]
    simp [hp, ksFile]
  · decide

/-- Witness for C4 with a concrete host parse of the quoted date. -/
theorem end_to_end_checkX_witness :
    (findKSDeclaration pdExample noCommentDate 0 ksProject
      { targetId := none, ksFilePath := none,
        thresholdDate := some 1704067200000 }).1 =
      { ksDecls := [checkXDecl],
        guids := ["3fa85f64-5717-4562-b3fc-2c963f66afa6"] } ∧
    replaceFunCallWithFalse [checkXRef] =
      { workList := [checkXIfNode], refFiles := ["src/use.ts"],
        edits := [(checkXNegNode, "true")] } :=
  end_to_end_checkX pdExample noCommentDate 0 1672531200000 1704067200000
    (by decide) (by decide)
